import Mathlib

/-!
Verification of the SPK network desktop agent
(`desktop-agent/src-tauri/src/notifications.rs` and
`desktop-agent/src-tauri/src/main.rs`) against its natural-language
specification.

The development shallowly embeds the Rust source:

* IEEE-754 `f64` values are embedded as `F64`: a NaN, the two infinities,
  or a finite value carried as an exact rational.  Every claim below is
  purely order-theoretic (comparisons, max), and rounding a decimal
  literal to the nearest binary64 preserves the strict ordering of the
  literals used by the program, so finite values are modelled by the
  exact rationals of the source literals.
* Rust `String`s are embedded as their UTF-8 byte sequences (`List Nat`),
  because the source indexes and slices strings by byte offset, and byte
  slicing panics when an offset is not a character boundary.
* the spawned daemon-startup closure (Task B of the spec) is embedded as
  a function from the outcomes of the opaque `KuboManager` calls to the
  trace of observable events it performs.
-/

/-- Embedding of an IEEE-754 binary64 value as used by the agent: NaN,
an infinity, or a finite value (modelled by an exact rational). -/
inductive F64 where
  | nan
  | neg_inf
  | fin (q : ℚ)
  | pos_inf
  deriving DecidableEq, Repr

/-- Rust `f64::is_nan`. -/
def F64.isNaN : F64 → Bool
  | F64.nan => true
  | _ => false

/-- IEEE-754 `<` on binary64: false whenever either operand is NaN,
otherwise the numeric order with `-inf` least and `+inf` greatest. -/
def F64.lt : F64 → F64 → Bool
  | F64.nan, _ => false
  | _, F64.nan => false
  | F64.neg_inf, F64.neg_inf => false
  | F64.neg_inf, _ => true
  | _, F64.neg_inf => false
  | F64.pos_inf, _ => false
  | F64.fin _, F64.pos_inf => true
  | F64.fin a, F64.fin b => decide (a < b)

/-- IEEE-754 `<=` on binary64: false whenever either operand is NaN,
otherwise the numeric order (reflexive on non-NaN values). -/
def F64.le : F64 → F64 → Bool
  | F64.nan, _ => false
  | _, F64.nan => false
  | F64.neg_inf, _ => true
  | _, F64.neg_inf => false
  | _, F64.pos_inf => true
  | F64.pos_inf, _ => false
  | F64.fin a, F64.fin b => decide (a ≤ b)

/-- Rust `f64::max` (`self.max(other)`): if either argument is NaN the
other is returned, otherwise the larger of the two. -/
def F64.max (self other : F64) : F64 :=
  if self.isNaN then other
  else if other.isNaN then self
  else if F64.lt self other then other else self

/-- `MILESTONE_THRESHOLDS: [f64; 5] = [0.01, 0.1, 1.0, 10.0, 100.0]`
(notifications.rs line 3), decimal literals as exact rationals, written
with `Rat.divInt` so that the kernel can evaluate comparisons
(`MILESTONE_THRESHOLDS_eq` below restates them as `1/100`, `1/10`, …). -/
def MILESTONE_THRESHOLDS : List F64 :=
  [F64.fin (Rat.divInt 1 100), F64.fin (Rat.divInt 1 10),
   F64.fin 1, F64.fin 10, F64.fin 100]

/-- The threshold constants are exactly the rationals 1/100, 1/10, 1,
10, 100. -/
lemma MILESTONE_THRESHOLDS_eq :
    MILESTONE_THRESHOLDS =
      [F64.fin (1/100), F64.fin (1/10), F64.fin 1, F64.fin 10, F64.fin 100] := by
  norm_num [MILESTONE_THRESHOLDS, Rat.divInt_eq_div]

/-- `check_milestone_crossed` (notifications.rs lines 29-36): the source
iterates over `MILESTONE_THRESHOLDS` in array order and returns
`Some(threshold)` for the first `threshold` with
`old_total < threshold && new_total >= threshold`, else `None`.  A `for`
loop with an early return is exactly `List.find?`; IEEE `new >= t` is
`t <= new`. -/
def check_milestone_crossed (old_total new_total : F64) : Option F64 :=
  MILESTONE_THRESHOLDS.find?
    (fun threshold => F64.lt old_total threshold && F64.le threshold new_total)

/-- The f64 value interpolated into the notification body of
`send_milestone_notification` (notifications.rs lines 12-17):
`milestone.max(total_earned)` inside
`format!("Total earned: {:.2} HBD", ...)`. -/
def milestone_notification_amount (total_earned milestone : F64) : F64 :=
  F64.max milestone total_earned

section F64Lemmas

lemma F64.le_refl_of_not_nan {a : F64} (h : a.isNaN = false) : F64.le a a = true := by
  cases a <;> simp [F64.isNaN] at h ⊢ <;> simp [F64.le]

lemma F64.le_of_lt {a b : F64} (h : F64.lt a b = true) : F64.le a b = true := by
  cases a <;> cases b <;> simp [F64.lt, F64.le] at h ⊢ <;> linarith

lemma F64.lt_irrefl (a : F64) : F64.lt a a = false := by
  cases a <;> simp [F64.lt]

lemma F64.lt_of_lt_of_le {a b c : F64} (h1 : F64.lt a b = true)
    (h2 : F64.le b c = true) : F64.lt a c = true := by
  cases a <;> cases b <;> cases c <;>
    simp [F64.lt, F64.le] at h1 h2 ⊢ <;> linarith

lemma F64.le_trans {a b c : F64} (h1 : F64.le a b = true)
    (h2 : F64.le b c = true) : F64.le a c = true := by
  cases a <;> cases b <;> cases c <;>
    simp [F64.lt, F64.le] at h1 h2 ⊢ <;> linarith

lemma F64.lt_nan_left (b : F64) : F64.lt F64.nan b = false := by
  cases b <;> simp [F64.lt]

lemma F64.le_nan_right (a : F64) : F64.le a F64.nan = false := by
  cases a <;> simp [F64.le]

/-- On a list whose elements are pairwise strictly increasing and never
NaN, the first element satisfying `p` is `le`-below every element
satisfying `p`. -/
lemma find_first_is_least {p : F64 → Bool} :
    ∀ {l : List F64}, l.Pairwise (fun a b => F64.lt a b = true) →
      (∀ x ∈ l, x.isNaN = false) →
      ∀ {t : F64}, l.find? p = some t →
      ∀ t' ∈ l, p t' = true → F64.le t t' = true := by
  intro l
  induction l with
  | nil => intro _ _; simp [List.find?]
  | cons a tl ih =>
    intro hpair hnn t ht t' ht' hp
    rw [List.pairwise_cons] at hpair
    rcases hfa : p a with hfa0 | hfa1
    · rw [List.find?_cons, hfa] at ht
      rcases List.mem_cons.mp ht' with rfl | hmem
      · rw [hp] at hfa; cases hfa
      · exact ih hpair.2 (fun x hx => hnn x (List.mem_cons_of_mem a hx)) ht t' hmem hp
    · rw [List.find?_cons, hfa] at ht
      have hta : t = a := by injection ht with h; exact h.symm
      rcases List.mem_cons.mp ht' with h1 | hmem
      · rw [hta, h1]; exact F64.le_refl_of_not_nan (hnn a (List.mem_cons_self a tl))
      · rw [hta]; exact F64.le_of_lt (hpair.1 t' hmem)

end F64Lemmas

/-!
## Strings and the short-identifier formatting

Rust `String`s are sequences of UTF-8 bytes; `peer_id.len()` is the byte
length and `&peer_id[..6]` / `&peer_id[peer_id.len()-6..]` slice by byte
offset, panicking when the offset is not a character boundary.  A string
is embedded as its byte list.
-/

/-- The bytes of an ASCII string literal (each character below 128,
where the UTF-8 encoding is one byte per character). -/
def asciiBytes (s : String) : List Nat := s.data.map Char.toNat

/-- Rust `str::is_char_boundary(i)`: true at offset 0 and at the byte
length, and at any interior offset whose byte is not a UTF-8
continuation byte (`0x80..0xBF`). -/
def isCharBoundary (s : List Nat) (i : Nat) : Bool :=
  i == 0 ||
    (match s.get? i with
     | some b => decide (b < 128) || decide (192 ≤ b)
     | none => i == s.length)

/-- The byte sequence of `"..."`. -/
def ellipsisBytes : List Nat := [46, 46, 46]

/-- The `short_id` computation (main.rs lines 112-117):

    let short_id = if peer_id.len() > 12 {
        format!("{}...{}", &peer_id[..6], &peer_id[peer_id.len()-6..])
    } else {
        peer_id
    };

`none` models a panic: slicing `&peer_id[..6]` or
`&peer_id[peer_id.len()-6..]` panics when the offset is not a character
boundary. -/
def short_id (peer_id : List Nat) : Option (List Nat) :=
  if peer_id.length > 12 then
    if isCharBoundary peer_id 6 && isCharBoundary peer_id (peer_id.length - 6) then
      some (peer_id.take 6 ++ ellipsisBytes ++ peer_id.drop (peer_id.length - 6))
    else
      none
  else
    some peer_id

/-- UTF-8 bytes of `"aaaaaééééé"` (five `a`, then five `é` encoded as
`0xC3 0xA9`): a valid Rust string of byte length 15 whose byte offset 6
falls inside the first `é`. -/
def multibytePeerA : List Nat :=
  [97, 97, 97, 97, 97, 195, 169, 195, 169, 195, 169, 195, 169, 195, 169]

/-- UTF-8 bytes of `"bbbbbééééé"`: same shape with `b` in place of `a`. -/
def multibytePeerB : List Nat :=
  [98, 98, 98, 98, 98, 195, 169, 195, 169, 195, 169, 195, 169, 195, 169]

/-!
## Task B of the startup orchestrator

main.rs lines 92-120 spawn an async closure (the spec's Task B) that:
acquires the write lock on the `KuboManager` handle, calls
`initialize()` (returning early on error after logging), calls
`start_daemon()` (likewise), drops the write lock, logs readiness,
acquires the read lock, and — when the tray handle exists — reads
`get_peer_id()`, computes `short_id`, and sets the tray status item's
title to `format!("Online: {}", short_id)` (the result of `set_title`
is discarded).

The closure is embedded as a function from the outcomes of the three
opaque `KuboManager` calls (the spec treats `initialize`,
`start_daemon` and `get_peer_id` as an external black box) and the
presence of the tray handle, to the trace of observable events the
closure performs, in order.
-/

/-- Outcomes of the environment calls made by the Task B closure.
`initRes` is the result of `manager.initialize()`, `startRes` of
`manager.start_daemon()`, `peerId` of `manager.get_peer_id()`, and
`trayFound` tells whether `handle.tray_handle_by_id("main")` returns
`Some`. -/
structure KuboEnv where
  initRes : Except String Unit
  startRes : Except String Unit
  peerId : Option (List Nat)
  trayFound : Bool

/-- Observable events of the Task B closure, in program order. -/
inductive Ev where
  | acquireWrite
  | callInit
  | callStartDaemon
  | logError (msg : String)
  | releaseWrite
  | logReady
  | acquireRead
  | callGetPeerId
  | setStatus (title : List Nat)
  | panicked
  deriving DecidableEq, Repr

/-- Bytes of the initial tray status title `"Status: Starting..."`
(main.rs line 29). -/
def statusStarting : List Nat := asciiBytes "Status: Starting..."

/-- Bytes of the `"Online: "` portion of
`format!("Online: {}", short_id)` (main.rs line 118). -/
def onlineTag : List Nat := asciiBytes "Online: "

/-- Event trace of the Task B closure (main.rs lines 95-119).  Error
paths `return` from inside the write-lock scope, so the write guard is
dropped (released) on every path; `Ev.panicked` models the panic of the
byte slicing inside `short_id` on a non-boundary offset. -/
def taskB (env : KuboEnv) : List Ev :=
  match env.initRes with
  | Except.error e => [Ev.acquireWrite, Ev.callInit, Ev.logError e, Ev.releaseWrite]
  | Except.ok _ =>
    match env.startRes with
    | Except.error e =>
        [Ev.acquireWrite, Ev.callInit, Ev.callStartDaemon, Ev.logError e, Ev.releaseWrite]
    | Except.ok _ =>
        [Ev.acquireWrite, Ev.callInit, Ev.callStartDaemon, Ev.releaseWrite,
         Ev.logReady, Ev.acquireRead] ++
        (if env.trayFound then
          match short_id (env.peerId.getD []) with
          | some sid => [Ev.callGetPeerId, Ev.setStatus (onlineTag ++ sid)]
          | none => [Ev.callGetPeerId, Ev.panicked]
        else [])

/-- Tray status title after a trace of events, starting from the
initial `"Status: Starting..."` menu item: each `setStatus` overwrites
the title, every other event leaves it unchanged. -/
def trayAfter (trace : List Ev) : List Nat :=
  trace.foldl
    (fun st e => match e with
      | Ev.setStatus t => t
      | _ => st)
    statusStarting

/-!
## Lock discipline of Task B (read/write lock model)

The `KuboManager` handle is an `Arc<RwLock<KuboManager>>` (tokio
`RwLock`: single writer, multiple readers; a writer acquires only when
no reader or writer holds the lock, a reader acquires only when no
writer holds it).  Task B's success path, projected to its lock
operations and daemon-state transitions (main.rs lines 95-110), is
interleaved with an arbitrary concurrent reader of the handle (the API
server task holds such a reader).  Every interleaving consistent with
the lock semantics is enumerated and checked.
-/

/-- Daemon-manager state as observed through the handle:
before `initialize()`, after `initialize()` but before
`start_daemon()` (the partially-initialized intermediate state), and
after `start_daemon()`. -/
inductive DState where
  | preInit
  | midInit
  | running
  deriving DecidableEq, Repr

/-- Atomic actions: `w…` are Task B's (writer) actions, `r…` a
concurrent reader's. -/
inductive Act where
  | wAcqWrite
  | wDoInit
  | wDoStart
  | wRelWrite
  | wAcqRead
  | wGetPeer
  | wRelRead
  | rAcqRead
  | rObserve
  | rRelRead
  deriving DecidableEq, Repr

/-- Task B's success path as its sequence of lock operations and
daemon-state transitions (main.rs lines 95-110): take the write lock,
initialize, start the daemon, drop the write guard (end of the block),
take the read lock, call `get_peer_id()`, drop the read guard. -/
def writerOps : List Act :=
  [Act.wAcqWrite, Act.wDoInit, Act.wDoStart, Act.wRelWrite,
   Act.wAcqRead, Act.wGetPeer, Act.wRelRead]

/-- A concurrent reader of the handle: acquire the read lock, observe
the daemon-manager state, release. -/
def readerOps : List Act := [Act.rAcqRead, Act.rObserve, Act.rRelRead]

/-- Combined state of the `RwLock` and the guarded manager, plus what
the concurrent reader observed. -/
structure LockSt where
  writeHeld : Bool
  readers : Nat
  dstate : DState
  observed : Option DState
  deriving DecidableEq, Repr

/-- One atomic action.  `none` means the action is not enabled (the
thread blocks): a write acquisition needs no holder at all, a read
acquisition needs no writer. -/
def lockStep (s : LockSt) (a : Act) : Option LockSt :=
  match a with
  | Act.wAcqWrite =>
      if !s.writeHeld && s.readers == 0 then
        some { s with writeHeld := true }
      else none
  | Act.wDoInit => some { s with dstate := DState.midInit }
  | Act.wDoStart => some { s with dstate := DState.running }
  | Act.wRelWrite => some { s with writeHeld := false }
  | Act.wAcqRead =>
      if !s.writeHeld then some { s with readers := s.readers + 1 } else none
  | Act.wGetPeer => some s
  | Act.wRelRead => some { s with readers := s.readers - 1 }
  | Act.rAcqRead =>
      if !s.writeHeld then some { s with readers := s.readers + 1 } else none
  | Act.rObserve => some { s with observed := some s.dstate }
  | Act.rRelRead => some { s with readers := s.readers - 1 }

/-- Run a sequence of actions; `none` as soon as one is not enabled
(that schedule is impossible: the blocked thread cannot proceed). -/
def lockRun : LockSt → List Act → Option LockSt
  | s, [] => some s
  | s, a :: rest =>
      match lockStep s a with
      | some s2 => lockRun s2 rest
      | none => none

/-- Initial state: lock free, manager not yet initialized, nothing
observed. -/
def lockInit : LockSt :=
  { writeHeld := false, readers := 0, dstate := DState.preInit, observed := none }

/-- All interleavings of two sequences of actions (each thread's own
program order is preserved); `fuel` bounds the recursion structurally
so the kernel can evaluate it. -/
def interleavingsAux : Nat → List Act → List Act → List (List Act)
  | 0, xs, ys => [xs ++ ys]
  | _ + 1, [], ys => [ys]
  | _ + 1, x :: xs, [] => [x :: xs]
  | fuel + 1, x :: xs, y :: ys =>
      (interleavingsAux fuel xs (y :: ys)).map (fun t => x :: t) ++
      (interleavingsAux fuel (x :: xs) ys).map (fun t => y :: t)

/-- All interleavings of two sequences of actions. -/
def interleavings (xs ys : List Act) : List (List Act) :=
  interleavingsAux (xs.length + ys.length) xs ys

/-- A schedule is acceptable when it is impossible (some action blocks
where scheduled) or the reader observed the manager either before
initialization began or after the daemon start completed — never the
partially-initialized intermediate state. -/
def scheduleOk (tr : List Act) : Bool :=
  match lockRun lockInit tr with
  | some s => s.observed == some DState.preInit || s.observed == some DState.running
  | none => true

/-!
## Claim theorems
-/

/-- C1: `check_milestone_crossed` returns the smallest threshold `t` of
`MILESTONE_THRESHOLDS` with `old_total < t <= new_total` and `none`
when no such threshold exists; in particular it is `none` whenever the
two arguments are equal, and when several thresholds are jumped in one
call only the lowest newly-crossed one is returned. -/
theorem check_milestone_crossed_least_C1 (old_total new_total : F64) :
    (∀ t, check_milestone_crossed old_total new_total = some t →
        t ∈ MILESTONE_THRESHOLDS ∧ F64.lt old_total t = true ∧
        F64.le t new_total = true ∧
        ∀ t' ∈ MILESTONE_THRESHOLDS, F64.lt old_total t' = true →
          F64.le t' new_total = true → F64.le t t' = true)
  ∧ (check_milestone_crossed old_total new_total = none ↔
        ∀ t ∈ MILESTONE_THRESHOLDS,
          ¬(F64.lt old_total t = true ∧ F64.le t new_total = true))
  ∧ check_milestone_crossed old_total old_total = none := by
  refine ⟨?_, ?_, ?_⟩
  · intro t ht
    have hmem := List.mem_of_find?_eq_some ht
    have hpred := List.find?_some ht
    rw [Bool.and_eq_true] at hpred
    refine ⟨hmem, hpred.1, hpred.2, ?_⟩
    intro t' hmem' h1 h2
    exact find_first_is_least (by decide) (by decide) ht t' hmem'
      (by rw [Bool.and_eq_true]; exact ⟨h1, h2⟩)
  · rw [check_milestone_crossed, List.find?_eq_none]
    constructor
    · intro h t hmem hc
      exact absurd (by rw [Bool.and_eq_true]; exact ⟨hc.1, hc.2⟩) (h t hmem)
    · intro h t hmem hc
      rw [Bool.and_eq_true] at hc
      exact h t hmem hc
  · rw [check_milestone_crossed, List.find?_eq_none]
    intro t _ hc
    rw [Bool.and_eq_true] at hc
    have hlt := F64.lt_of_lt_of_le hc.1 hc.2
    rw [F64.lt_irrefl] at hlt
    cases hlt

/-- Witness for C1, applying it at `(200, 300)`: both totals already
exceed every threshold, so no milestone is newly crossed. -/
theorem check_milestone_crossed_least_C1_witness :
    check_milestone_crossed (F64.fin 200) (F64.fin 300) = none :=
  (check_milestone_crossed_least_C1 (F64.fin 200) (F64.fin 300)).2.1.mpr (by decide)

/-- C9: `check_milestone_crossed` returns `some t` only when `t` is a
threshold and `old_total < t <= new_total` (hence
`old_total < new_total`); whenever `new_total <= old_total`, or either
argument is NaN, the result is `none`. -/
theorem check_milestone_crossed_sound_C9 (old_total new_total : F64) :
    (∀ t, check_milestone_crossed old_total new_total = some t →
        t ∈ MILESTONE_THRESHOLDS ∧ F64.lt old_total t = true ∧
        F64.le t new_total = true ∧ F64.lt old_total new_total = true)
  ∧ (F64.le new_total old_total = true →
        check_milestone_crossed old_total new_total = none)
  ∧ (old_total.isNaN = true ∨ new_total.isNaN = true →
        check_milestone_crossed old_total new_total = none) := by
  refine ⟨?_, ?_, ?_⟩
  · intro t ht
    have hmem := List.mem_of_find?_eq_some ht
    have hpred := List.find?_some ht
    rw [Bool.and_eq_true] at hpred
    exact ⟨hmem, hpred.1, hpred.2, F64.lt_of_lt_of_le hpred.1 hpred.2⟩
  · intro hle
    rw [check_milestone_crossed, List.find?_eq_none]
    intro t _ hc
    rw [Bool.and_eq_true] at hc
    have hlt := F64.lt_of_lt_of_le hc.1 (F64.le_trans hc.2 hle)
    rw [F64.lt_irrefl] at hlt
    cases hlt
  · intro hnan
    rw [check_milestone_crossed, List.find?_eq_none]
    intro t _ hc
    rw [Bool.and_eq_true] at hc
    rcases hnan with h | h
    · cases old_total <;> simp [F64.isNaN] at h
      rw [F64.lt_nan_left] at hc
      cases hc.1
    · cases new_total <;> simp [F64.isNaN] at h
      rw [F64.le_nan_right] at hc
      cases hc.2

/-- Witness for C9, applying it at a decreasing pair `(5, 3)`. -/
theorem check_milestone_crossed_sound_C9_witness :
    check_milestone_crossed (F64.fin 5) (F64.fin 3) = none :=
  (check_milestone_crossed_sound_C9 (F64.fin 5) (F64.fin 3)).2.1 (by decide)

/-- C7: the amount interpolated into the body of
`send_milestone_notification` is `milestone.max(total_earned)`, and by
IEEE comparison it is never smaller than either argument. -/
theorem milestone_notification_amount_C7 (total_earned milestone : F64) :
    milestone_notification_amount total_earned milestone =
      F64.max milestone total_earned ∧
    F64.lt (milestone_notification_amount total_earned milestone) milestone = false ∧
    F64.lt (milestone_notification_amount total_earned milestone) total_earned = false := by
  refine ⟨rfl, ?_, ?_⟩ <;>
    · cases total_earned <;> cases milestone <;>
        simp [milestone_notification_amount, F64.max, F64.isNaN, F64.lt] <;>
        (try split_ifs) <;> simp [F64.lt] <;> linarith

/-- C8: `MILESTONE_THRESHOLDS` is a non-empty, strictly increasing
sequence (a fixed `const` of the source). -/
theorem milestone_thresholds_ascending_C8 :
    MILESTONE_THRESHOLDS ≠ [] ∧
    List.Pairwise (fun a b => F64.lt a b = true) MILESTONE_THRESHOLDS := by
  constructor
  · decide
  · decide

/-- Counterexample to C2 as stated: the valid 15-byte string
`"aaaaaééééé"` has length > 12, but the formatting does not produce
`first6 ++ "..." ++ last6` — the slice `&peer_id[..6]` panics because
byte offset 6 is inside a two-byte character, so there is no output at
all. -/
theorem short_id_truncation_counterexample_C2 :
    multibytePeerA.length > 12 ∧
    short_id multibytePeerA = none ∧
    short_id multibytePeerA ≠
      some (multibytePeerA.take 6 ++ ellipsisBytes ++
        multibytePeerA.drop (multibytePeerA.length - 6)) := by
  decide

/-- C2 (amended): for byte length ≤ 12 the output equals the input
unchanged; for byte length > 12, provided byte offsets 6 and
`len - 6` are character boundaries (in particular for every ASCII
input), the output is the first 6 bytes, then `"..."`, then the last 6
bytes; an absent identifier yields the empty string (the caller
substitutes `""`, which is returned unchanged).  On other inputs the
byte slicing panics and no output is produced. -/
theorem short_id_truncation_C2 (peer_id : List Nat) :
    (peer_id.length ≤ 12 → short_id peer_id = some peer_id)
  ∧ (peer_id.length > 12 → isCharBoundary peer_id 6 = true →
      isCharBoundary peer_id (peer_id.length - 6) = true →
      short_id peer_id =
        some (peer_id.take 6 ++ ellipsisBytes ++ peer_id.drop (peer_id.length - 6)))
  ∧ short_id [] = some [] := by
  refine ⟨?_, ?_, rfl⟩
  · intro h
    rw [short_id, if_neg (by omega)]
  · intro h h6 hl
    rw [short_id, if_pos h, if_pos (by simp [h6, hl])]

/-- Witness for C2 at a 13-byte ASCII identifier. -/
theorem short_id_truncation_C2_witness :
    short_id (List.replicate 13 97) =
      some ((List.replicate 13 97).take 6 ++ ellipsisBytes ++
        (List.replicate 13 97).drop ((List.replicate 13 97).length - 6)) :=
  (short_id_truncation_C2 (List.replicate 13 97)).2.1 (by decide) (by decide) (by decide)

/-- C3: the short-identifier computation is not total — on the valid
15-byte string `"bbbbbééééé"` the byte length exceeds 12 and byte
offset 6 is not a character boundary, so `&peer_id[..6]` panics
(`byte index 6 is not a char boundary`), contradicting the
specification's totality requirement. -/
theorem short_id_multibyte_panic_C3 :
    multibytePeerB.length > 12 ∧
    isCharBoundary multibytePeerB 6 = false ∧
    short_id multibytePeerB = none := by
  decide

/-- C4: within Task B the steps run strictly in the order
`initialize()`, then `start_daemon()`, then the status publish; an
`initialize` error makes the task log the error and exit without ever
calling `start_daemon`; a `start_daemon` error makes the task log the
error and exit without publishing any status. -/
theorem taskB_order_C4 (env : KuboEnv) :
    (∀ e, env.initRes = Except.error e →
        taskB env = [Ev.acquireWrite, Ev.callInit, Ev.logError e, Ev.releaseWrite])
  ∧ (∀ e, env.initRes = Except.ok () → env.startRes = Except.error e →
        taskB env = [Ev.acquireWrite, Ev.callInit, Ev.callStartDaemon,
          Ev.logError e, Ev.releaseWrite])
  ∧ (env.initRes = Except.ok () → env.startRes = Except.ok () →
        ∃ rest, taskB env =
          Ev.acquireWrite :: Ev.callInit :: Ev.callStartDaemon :: Ev.releaseWrite ::
          Ev.logReady :: Ev.acquireRead :: rest) := by
  refine ⟨?_, ?_, ?_⟩
  · intro e he
    simp [taskB, he]
  · intro e hi hs
    simp [taskB, hi, hs]
  · intro hi hs
    simp only [taskB, hi, hs]
    exact ⟨_, rfl⟩

/-- Witness for C4 at an environment whose `initialize()` fails. -/
theorem taskB_order_C4_witness :
    taskB ⟨Except.error "boom", Except.ok (), none, true⟩ =
      [Ev.acquireWrite, Ev.callInit, Ev.logError "boom", Ev.releaseWrite] :=
  (taskB_order_C4 ⟨Except.error "boom", Except.ok (), none, true⟩).1 "boom" rfl

/-- C5: an `"Online: …"` status is published only when both
`initialize()` and `start_daemon()` succeeded; on any failure of either
call no `setStatus` event happens at all, the tray title stays at the
initial `"Status: Starting..."`, and the task neither panics nor
aborts. -/
theorem taskB_online_only_after_success_C5 (env : KuboEnv) :
    ((∃ e, env.initRes = Except.error e) ∨ (∃ e, env.startRes = Except.error e) →
        trayAfter (taskB env) = statusStarting ∧
        (∀ t, Ev.setStatus t ∉ taskB env) ∧
        Ev.panicked ∉ taskB env)
  ∧ (∀ t, Ev.setStatus t ∈ taskB env →
        env.initRes = Except.ok () ∧ env.startRes = Except.ok () ∧
        ∃ s, t = onlineTag ++ s) := by
  obtain ⟨i, s, p, tr⟩ := env
  cases i with
  | error e =>
    refine ⟨fun _ => ?_, fun t ht => ?_⟩
    · refine ⟨rfl, fun t => ?_, ?_⟩ <;> simp [taskB]
    · simp [taskB] at ht
  | ok u =>
    cases u
    cases s with
    | error e =>
      refine ⟨fun _ => ?_, fun t ht => ?_⟩
      · refine ⟨rfl, fun t => ?_, ?_⟩ <;> simp [taskB]
      · simp [taskB] at ht
    | ok v =>
      cases v
      refine ⟨fun hf => ?_, fun t ht => ?_⟩
      · rcases hf with ⟨e, he⟩ | ⟨e, he⟩ <;> cases he
      · refine ⟨rfl, rfl, ?_⟩
        simp only [taskB] at ht
        cases tr with
        | false => simp at ht
        | true =>
          rcases hsid : short_id (p.getD []) with _ | sid <;>
            rw [hsid] at ht <;> simp at ht
          exact ⟨sid, ht⟩

/-- Witness for C5 at an environment whose `start_daemon()` fails: the
tray keeps its initial title. -/
theorem taskB_online_only_after_success_C5_witness :
    trayAfter (taskB ⟨Except.ok (), Except.error "boom2", none, true⟩) =
      statusStarting :=
  ((taskB_online_only_after_success_C5
      ⟨Except.ok (), Except.error "boom2", none, true⟩).1
    (Or.inr ⟨"boom2", rfl⟩)).1

/-- C10: when `initialize()` and `start_daemon()` succeed, the tray
handle exists, and `get_peer_id()` returns no identifier, the closure
substitutes the empty string, `short_id` leaves it unchanged, and the
published status title is exactly `"Online: "`. -/
theorem taskB_empty_peer_online_C10 (env : KuboEnv)
    (h1 : env.initRes = Except.ok ()) (h2 : env.startRes = Except.ok ())
    (h3 : env.peerId = none) (h4 : env.trayFound = true) :
    taskB env =
      [Ev.acquireWrite, Ev.callInit, Ev.callStartDaemon, Ev.releaseWrite,
       Ev.logReady, Ev.acquireRead, Ev.callGetPeerId, Ev.setStatus onlineTag] ∧
    onlineTag = asciiBytes "Online: " := by
  refine ⟨?_, rfl⟩
  simp [taskB, h1, h2, h3, h4, short_id]

/-- Witness for C10 at the concrete successful environment with no
peer id. -/
theorem taskB_empty_peer_online_C10_witness :
    taskB ⟨Except.ok (), Except.ok (), none, true⟩ =
      [Ev.acquireWrite, Ev.callInit, Ev.callStartDaemon, Ev.releaseWrite,
       Ev.logReady, Ev.acquireRead, Ev.callGetPeerId, Ev.setStatus onlineTag] ∧
    onlineTag = asciiBytes "Online: " :=
  taskB_empty_peer_online_C10 ⟨Except.ok (), Except.ok (), none, true⟩ rfl rfl rfl rfl

set_option maxRecDepth 8000 in
/-- C6: under the single-writer/multiple-reader lock semantics, in
every schedule of Task B's lock operations against a concurrent reader
of the daemon-manager handle, the reader observes the manager either
before initialization began or after the daemon start completed — never
the partially-initialized intermediate state (schedules where the
reader's acquisition falls inside the exclusive phase are impossible:
the reader blocks); and within Task B the write lock is released
strictly before the read lock used for `get_peer_id()` is acquired. -/
theorem lock_discipline_C6 :
    (∀ tr ∈ interleavings writerOps readerOps, scheduleOk tr = true)
  ∧ writerOps.indexOf Act.wRelWrite < writerOps.indexOf Act.wAcqRead := by
  constructor
  · decide
  · decide

set_option maxRecDepth 8000 in
/-- Witness for C6 at the schedule that runs all of Task B before the
reader. -/
theorem lock_discipline_C6_witness :
    scheduleOk (writerOps ++ readerOps) = true :=
  lock_discipline_C6.1 (writerOps ++ readerOps) (by decide)
